import Mathlib

/-!
# GoStencil — verification of the template resolver and AVI muxer

Shallow embedding of the GoStencil repository's core algorithms:

* `pkg/template/merge.go` — `MergeData`, `mergeComponentData`, `mergeComponentStyle`
* `pkg/template/loader.go` / `pkg/template/parser.go` — canvas normalization
* `pkg/template/fonts.go` / the second `fonts.go` snapshot — `GetFace` DPI handling
* `pkg/generator/avi.go` — `AVIGenerator.Generate` (MJPEG AVI container emission),
  `parseHexColorAlpha`, `drawContain`, `drawCover`
* `pkg/generator/generator.go` — the `Generate` dispatcher's duration clamping

Go `float64` fields are modelled as exact rationals (`ℚ`); Go machine integers
are modelled as `Nat`/`Int` with explicit `% 2^32` wrapping where the source
converts to `uint32`.  Go's `int(...)` float-to-int conversion truncates toward
zero, modelled by `goTrunc`.
-/

namespace GoStencil

/-- Go `int(q)` for a rational `q`: truncation toward zero
(floor for non-negative values, ceiling for negative values). -/
def goTrunc (q : ℚ) : Int :=
  if 0 ≤ q then ⌊q⌋ else ⌈q⌉

/-- Go `uint32(d)` for a (signed, arbitrary-width) integer `d`:
reduction modulo `2^32` (two's-complement wrap). -/
def uint32ofInt (d : Int) : Nat :=
  (d % 4294967296).toNat

/-- Go `uint32` arithmetic wrap: every `uint32` operation reduces mod `2^32`. -/
def w32 (v : Nat) : Nat :=
  v % 4294967296

/-! ## Template data model (`pkg/template/parser.go`, models.go snapshot) -/

/-- `ComponentStyle` from models.go: visual attributes of a component.
`float64` fields (`FontSize`, `LineHeight`) are modelled as `ℚ`. -/
structure ComponentStyle where
  backgroundColor : String
  backgroundImage : String
  backgroundFit   : String
  borderColor     : String
  borderWidth     : Int
  cornerRadius    : Int
  fontPath        : String
  fontSize        : ℚ
  color           : String
  lineHeight      : ℚ
  textAlign       : String
  deriving Repr, DecidableEq

/-- `TextItem` from models.go. -/
structure TextItem where
  type : String
  text : String
  deriving Repr, DecidableEq

/-- `ComponentData` from models.go.  `Visible *bool` is `Option Bool`
(`none` = nil = inherit); `Items []TextItem` distinguishes nil (`none`)
from a present (possibly empty) list; `Style *ComponentStyle` likewise. -/
structure ComponentData where
  visible : Option Bool
  title   : String
  items   : Option (List TextItem)
  style   : Option ComponentStyle
  deriving Repr, DecidableEq

/-- `Component` from models.go: fractional geometry (`float64` → `ℚ`),
stacking index, padding, style and baked-in defaults. -/
structure Component where
  id       : String
  x        : ℚ
  y        : ℚ
  width    : ℚ
  height   : ℚ
  zIndex   : Int
  padding  : Int
  style    : ComponentStyle
  defaults : ComponentData
  deriving Repr, DecidableEq

/-- `Canvas` from models.go. -/
structure Canvas where
  width  : Int
  height : Int
  preset : String
  deriving Repr, DecidableEq

/-- The fields of `Preset` that the resolver reads. -/
structure Preset where
  canvas     : Canvas
  components : List Component
  deriving Repr, DecidableEq

/-- `DataSpec.Components` (a Go `map[string]ComponentData`), modelled as a
lookup function from component ID to an optional override. -/
def DataSpec : Type := String → Option ComponentData

/-- `ResolvedComponent` from models.go: absolute pixel rectangle plus the
merged style and data. -/
structure ResolvedComponent where
  id      : String
  x       : Int
  y       : Int
  width   : Int
  height  : Int
  zIndex  : Int
  padding : Int
  style   : ComponentStyle
  data    : ComponentData
  deriving Repr, DecidableEq

/-! ## `pkg/template/merge.go` -/

/-- `mergeComponentData` (merge.go:58-71): overlays user overrides onto
defaults.  Non-nil visibility replaces, non-empty title replaces, non-nil
items replace wholesale, non-nil style pointer replaces. -/
def mergeComponentData (base over : ComponentData) : ComponentData :=
  { visible := if over.visible.isSome then over.visible else base.visible
    title   := if over.title ≠ "" then over.title else base.title
    items   := if over.items.isSome then over.items else base.items
    style   := if over.style.isSome then over.style else base.style }

/-- `mergeComponentStyle` (merge.go:74-108): applies non-zero style
overrides field by field.  String fields replace when non-empty; numeric
fields replace when strictly positive (`> 0` in the source). -/
def mergeComponentStyle (base over : ComponentStyle) : ComponentStyle :=
  { backgroundColor := if over.backgroundColor ≠ "" then over.backgroundColor else base.backgroundColor
    backgroundImage := if over.backgroundImage ≠ "" then over.backgroundImage else base.backgroundImage
    backgroundFit   := if over.backgroundFit ≠ "" then over.backgroundFit else base.backgroundFit
    borderColor     := if over.borderColor ≠ "" then over.borderColor else base.borderColor
    borderWidth     := if over.borderWidth > 0 then over.borderWidth else base.borderWidth
    cornerRadius    := if over.cornerRadius > 0 then over.cornerRadius else base.cornerRadius
    fontPath        := if over.fontPath ≠ "" then over.fontPath else base.fontPath
    fontSize        := if over.fontSize > 0 then over.fontSize else base.fontSize
    color           := if over.color ≠ "" then over.color else base.color
    lineHeight      := if over.lineHeight > 0 then over.lineHeight else base.lineHeight
    textAlign       := if over.textAlign ≠ "" then over.textAlign else base.textAlign }

/-- The merged `ComponentData` for one component (merge.go:16-23): start from
the baked-in defaults and, when `data` is non-nil and holds an override for
this component's ID, overlay it with `mergeComponentData`. -/
def mergedOf (data : Option DataSpec) (comp : Component) : ComponentData :=
  match data with
  | none => comp.defaults
  | some d =>
    match d comp.id with
    | some over => mergeComponentData comp.defaults over
    | none => comp.defaults

/-- The final style for one component (merge.go:30-34): the preset style,
with the merged data's style override applied field-by-field when present. -/
def finalStyleOf (comp : Component) (merged : ComponentData) : ComponentStyle :=
  match merged.style with
  | some s => mergeComponentStyle comp.style s
  | none => comp.style

/-- The per-component body of `MergeData`'s loop (merge.go:15-47): apply the
override for this component's ID if present, drop the component when the
merged visibility is explicitly `false`, otherwise build the resolved
component with geometry truncated from the preset's fractional coordinates. -/
def resolveComponent (w h : Int) (data : Option DataSpec) (comp : Component) :
    Option ResolvedComponent :=
  let merged := mergedOf data comp
  if merged.visible = some false then
    none
  else
    some
      { id      := comp.id
        x       := goTrunc (comp.x * (w : ℚ))
        y       := goTrunc (comp.y * (h : ℚ))
        width   := goTrunc (comp.width * (w : ℚ))
        height  := goTrunc (comp.height * (h : ℚ))
        zIndex  := comp.zIndex
        padding := max comp.padding 0
        style   := finalStyleOf comp merged
        data    := merged }

/-- `MergeData` (merge.go:9-55): resolve every component in declaration
order, keep the visible ones, then stable-sort by ascending `zIndex`
(`sort.SliceStable`, modelled by the stable `List.mergeSort`). -/
def mergeData (preset : Preset) (data : Option DataSpec) : List ResolvedComponent :=
  let w := preset.canvas.width
  let h := preset.canvas.height
  let result := preset.components.filterMap (resolveComponent w h data)
  result.mergeSort (fun a b => a.zIndex ≤ b.zIndex)

/-! ## Canvas normalization (`pkg/template/loader.go:52-58`, `parser.go:141-147`) -/

/-- The `Presets` named-resolution table from models.go. -/
def canvasPresets : List (String × Int × Int) :=
  [("720p", 1280, 720), ("1080p", 1920, 1080), ("4k", 3840, 2160),
   ("instagram_square", 1080, 1080), ("instagram_story", 1080, 1920),
   ("youtube_thumb", 1280, 720)]

/-- The canvas fix-up shared by `LoadPreset` (loader.go:52-58) and
`ParsePresetFile` (parser.go:141-147): a recognized named preset sets the
dimensions, then both dimensions are clamped from below (`max(w,1280)`,
`max(h,720)`). -/
def normalizeCanvas (c : Canvas) : Canvas :=
  let c1 :=
    match canvasPresets.lookup c.preset with
    | some (w, h) => { c with width := w, height := h }
    | none => c
  { c1 with width := max c1.width 1280, height := max c1.height 720 }

/-! ## `GetFace` DPI handling (two snapshots in the repository) -/

/-- DPI normalization in `pkg/template/fonts.go:53-56`:
`if dpi <= 0 { dpi = 72 }`. -/
def getFaceDPIFonts (dpi : ℚ) : ℚ :=
  if dpi ≤ 0 then 72 else dpi

/-- DPI normalization in the second fonts.go snapshot (concatenated into
`pkg/template/parser.go`, line 474): `dpi = max(dpi, 72)`. -/
def getFaceDPISnapshot (dpi : ℚ) : ℚ :=
  max dpi 72

/-! ## `parseHexColorAlpha` (`pkg/generator/avi.go:680-700`, renderer snapshot)

Go strings are byte strings (`len`/slicing are in bytes), so the input is
modelled as a list of byte values. -/

/-- An RGBA color; channels are byte values. -/
structure RGBA where
  r : Nat
  g : Nat
  b : Nat
  a : Nat
  deriving Repr, DecidableEq

/-- `strings.TrimPrefix(hex, "#")`: drop one leading `'#'` (byte 35). -/
def stripHash : List Nat → List Nat
  | 35 :: rest => rest
  | s => s

/-- The value of one hex digit byte (`0-9`, `a-f`, `A-F`), or `none` when the
byte is not a hex digit. -/
def hexVal (b : Nat) : Option Nat :=
  if 48 ≤ b ∧ b ≤ 57 then some (b - 48)
  else if 97 ≤ b ∧ b ≤ 102 then some (b - 87)
  else if 65 ≤ b ∧ b ≤ 70 then some (b - 55)
  else none

/-- Go `strconv.ParseUint(s, 16, 8)` on a two-byte slice with the error
discarded (the source writes `r, _ := strconv.ParseUint(...)`): the parsed
value, or 0 when either byte is not a hex digit (Go returns 0 alongside a
syntax error). -/
def parseHexByte (b1 b2 : Nat) : Nat :=
  match hexVal b1, hexVal b2 with
  | some v1, some v2 => 16 * v1 + v2
  | _, _ => 0

/-- `parseHexColorAlpha` (avi.go renderer snapshot:682-700): strip an optional
`#`, then switch on the byte length: 6 → RGB with alpha 255, 8 → RGBA,
anything else → opaque white. -/
def parseHexColorAlpha (s : List Nat) : RGBA :=
  match stripHash s with
  | [r1, r2, g1, g2, b1, b2] =>
    ⟨parseHexByte r1 r2, parseHexByte g1 g2, parseHexByte b1 b2, 255⟩
  | [r1, r2, g1, g2, b1, b2, a1, a2] =>
    ⟨parseHexByte r1 r2, parseHexByte g1 g2, parseHexByte b1 b2, parseHexByte a1 a2⟩
  | _ => ⟨255, 255, 255, 255⟩

/-! ## AVI muxer scalar parameters (`pkg/generator/avi.go:69-83`) -/

/-- `fps := uint32(15)` (avi.go:72). -/
def aviFps : Nat := 15

/-- avi.go:74-77: `durationSec := uint32(config.Duration)` followed by
`if durationSec < 1 { durationSec = 1 }`.  The conversion to `uint32`
happens before the clamp, so negative durations wrap modulo `2^32`. -/
def aviDurationSec (d : Int) : Nat :=
  let u := uint32ofInt d
  if u < 1 then 1 else u

/-- avi.go:78: `totalFrames := durationSec * fps` in `uint32` arithmetic. -/
def aviTotalFrames (d : Int) : Nat :=
  w32 (aviDurationSec d * aviFps)

/-- generator.go:40 (dispatcher snapshot): `dur := max(cfg.Duration, 1)`,
applied to the `int` duration before the AVI writer is invoked. -/
def generatorDur (d : Int) : Int :=
  max d 1

/-! ## AVI muxer error flow (`pkg/generator/avi.go:25-209`)

`AVIGenerator.Generate` returns an error in exactly three places: a wrapped
JPEG-encode failure (avi.go:57-59), a wrapped `os.Create` failure
(avi.go:86-89), and the bare result of the final `f.Sync()` (avi.go:209).
The write helpers `writeFourCC` / `writeUint32` / `writeUint16`
(avi.go:93-105) call `f.Write` / `binary.Write` and discard the returned
error, so no individual write outcome can influence the returned value.
The byte emission itself is modelled separately below. -/

/-- The three error exits of `AVIGenerator.Generate`. -/
inductive MuxError where
  | encodeErr  -- "failed to encode JPEG: %w" (wrapped)
  | createErr  -- "failed to create output file: %w" (wrapped)
  | syncErr    -- the unwrapped error returned by `f.Sync()`
  deriving Repr, DecidableEq

/-- The environment's behavior during one `Generate` call: whether the JPEG
encode, the file creation, each individual write (indexed in call order) and
the final sync succeed. -/
structure WriterOutcome where
  encodeOk : Bool
  createOk : Bool
  writeOk  : Nat → Bool
  syncOk   : Bool

/-- The error returned by `AVIGenerator.Generate` as a function of the
environment's behavior, mirroring the source's control flow: the write
outcomes are not consulted because every helper discards its error. -/
def aviGenerateErr (o : WriterOutcome) : Option MuxError :=
  if !o.encodeOk then some MuxError.encodeErr
  else if !o.createOk then some MuxError.createErr
  else if !o.syncOk then some MuxError.syncErr
  else none

/-! ## Shared lemmas about the resolver -/

/-- The record built by `resolveComponent` for a surviving component. -/
def resolvedOf (w h : Int) (data : Option DataSpec) (comp : Component) :
    ResolvedComponent :=
  { id      := comp.id
    x       := goTrunc (comp.x * (w : ℚ))
    y       := goTrunc (comp.y * (h : ℚ))
    width   := goTrunc (comp.width * (w : ℚ))
    height  := goTrunc (comp.height * (h : ℚ))
    zIndex  := comp.zIndex
    padding := max comp.padding 0
    style   := finalStyleOf comp (mergedOf data comp)
    data    := mergedOf data comp }

theorem resolveComponent_eq_dite (w h : Int) (data : Option DataSpec) (comp : Component) :
    resolveComponent w h data comp =
      if (mergedOf data comp).visible = some false then none
      else some (resolvedOf w h data comp) := rfl

/-- `mergeSort` only permutes, so membership in `mergeData`'s output is
membership in the filterMap over the preset's components. -/
theorem mem_mergeData {preset : Preset} {data : Option DataSpec} {rc : ResolvedComponent} :
    rc ∈ mergeData preset data ↔
      ∃ comp ∈ preset.components,
        resolveComponent preset.canvas.width preset.canvas.height data comp = some rc := by
  simp only [mergeData]
  rw [List.Perm.mem_iff (List.mergeSort_perm _ _)]
  exact List.mem_filterMap

theorem resolveComponent_some {w h : Int} {data : Option DataSpec} {comp : Component}
    {rc : ResolvedComponent} (hres : resolveComponent w h data comp = some rc) :
    (mergedOf data comp).visible ≠ some false ∧ rc = resolvedOf w h data comp := by
  rw [resolveComponent_eq_dite] at hres
  split at hres
  · exact absurd hres (by simp)
  · rename_i hvis
    exact ⟨hvis, (Option.some_inj.mp hres).symm⟩

theorem resolveComponent_of_visible {w h : Int} {data : Option DataSpec} {comp : Component}
    (hvis : (mergedOf data comp).visible ≠ some false) :
    resolveComponent w h data comp = some (resolvedOf w h data comp) := by
  rw [resolveComponent_eq_dite, if_neg hvis]

theorem goTrunc_of_nonneg {q : ℚ} (h : 0 ≤ q) : goTrunc q = ⌊q⌋ := if_pos h

/-! ## C3 -/

/-- C3: every component surviving resolution has its rectangle computed from
the preset alone — `X = int(x*canvasWidth)`, `Y = int(y*canvasHeight)`,
`Width = int(width*canvasWidth)`, `Height = int(height*canvasHeight)` with
Go's truncating `int(...)` conversion, which is the floor for non-negative
products; no override field enters these formulas. -/
theorem c3_geometry_preset_only (preset : Preset) (data : Option DataSpec)
    (rc : ResolvedComponent) (hrc : rc ∈ mergeData preset data) :
    ∃ comp ∈ preset.components,
      rc.id = comp.id ∧
      rc.x = goTrunc (comp.x * (preset.canvas.width : ℚ)) ∧
      rc.y = goTrunc (comp.y * (preset.canvas.height : ℚ)) ∧
      rc.width = goTrunc (comp.width * (preset.canvas.width : ℚ)) ∧
      rc.height = goTrunc (comp.height * (preset.canvas.height : ℚ)) ∧
      (0 ≤ comp.x * (preset.canvas.width : ℚ) →
        rc.x = ⌊comp.x * (preset.canvas.width : ℚ)⌋) ∧
      (0 ≤ comp.width * (preset.canvas.width : ℚ) →
        rc.width = ⌊comp.width * (preset.canvas.width : ℚ)⌋) := by
  obtain ⟨comp, hcomp, hres⟩ := mem_mergeData.mp hrc
  obtain ⟨hvis, rfl⟩ := resolveComponent_some hres
  exact ⟨comp, hcomp, rfl, rfl, rfl, rfl, rfl,
    fun h => goTrunc_of_nonneg h, fun h => goTrunc_of_nonneg h⟩

def c3Style : ComponentStyle :=
  ⟨"#16213e", "", "", "", 0, 0, "", 24, "#ffffff", 3/2, "left"⟩

def c3Comp : Component :=
  { id := "hdr", x := 1/2, y := 0, width := 1/4, height := 1, zIndex := 1,
    padding := 0, style := c3Style, defaults := ⟨some true, "Hi", none, none⟩ }

def c3Preset : Preset := ⟨⟨1000, 800, ""⟩, [c3Comp]⟩

/-- An override that changes title and visibility but (necessarily) not
geometry. -/
def c3Data : DataSpec := fun i =>
  if i = "hdr" then some ⟨some true, "Changed", none, none⟩ else none

def c3RC : ResolvedComponent :=
  { id := "hdr", x := 500, y := 0, width := 250, height := 800, zIndex := 1,
    padding := 0, style := c3Style, data := ⟨some true, "Changed", none, none⟩ }

theorem c3_geometry_preset_only_witness :
    ∃ comp ∈ c3Preset.components,
      c3RC.id = comp.id ∧
      c3RC.x = goTrunc (comp.x * (c3Preset.canvas.width : ℚ)) ∧
      c3RC.y = goTrunc (comp.y * (c3Preset.canvas.height : ℚ)) ∧
      c3RC.width = goTrunc (comp.width * (c3Preset.canvas.width : ℚ)) ∧
      c3RC.height = goTrunc (comp.height * (c3Preset.canvas.height : ℚ)) ∧
      (0 ≤ comp.x * (c3Preset.canvas.width : ℚ) →
        c3RC.x = ⌊comp.x * (c3Preset.canvas.width : ℚ)⌋) ∧
      (0 ≤ comp.width * (c3Preset.canvas.width : ℚ) →
        c3RC.width = ⌊comp.width * (c3Preset.canvas.width : ℚ)⌋) :=
  c3_geometry_preset_only c3Preset (some c3Data) c3RC (by
    refine mem_mergeData.mpr ⟨c3Comp, by simp [c3Preset], ?_⟩
    rw [resolveComponent_of_visible
      (by simp [mergedOf, c3Data, c3Comp, mergeComponentData])]
    norm_num [resolvedOf, mergedOf, mergeComponentData, finalStyleOf,
      c3Comp, c3Preset, c3Data, c3Style, c3RC, goTrunc]
    decide)

/-! ## C4 -/

/-- The claim's effective visibility, stated from the spec's words (for
comparison with the source's `mergedOf`): the override's `Visible` when an
override exists for the ID and its `Visible` is non-nil, else the default's
`Visible`. -/
def specEffectiveVisible (data : Option DataSpec) (comp : Component) : Option Bool :=
  match data with
  | none => comp.defaults.visible
  | some d =>
    match d comp.id with
    | none => comp.defaults.visible
    | some over =>
      match over.visible with
      | some v => some v
      | none => comp.defaults.visible

theorem mergedOf_visible (data : Option DataSpec) (comp : Component) :
    (mergedOf data comp).visible = specEffectiveVisible data comp := by
  cases data with
  | none => rfl
  | some d =>
    cases hid : d comp.id with
    | none => simp [mergedOf, specEffectiveVisible, hid]
    | some over =>
      cases h : over.visible with
      | none => simp [mergedOf, specEffectiveVisible, hid, mergeComponentData, h]
      | some v => simp [mergedOf, specEffectiveVisible, hid, mergeComponentData, h]

/-- C4: a component ID appears in the resolver's output iff some component
with that ID has effective visibility (override's `Visible` when non-nil,
else the default's) other than explicit `false`; `nil` or `true` keeps the
component, explicit `false` removes it. -/
theorem c4_membership_iff_visibility (preset : Preset) (data : Option DataSpec)
    (id : String) :
    (∃ rc ∈ mergeData preset data, rc.id = id) ↔
      ∃ comp ∈ preset.components, comp.id = id ∧
        specEffectiveVisible data comp ≠ some false := by
  constructor
  · rintro ⟨rc, hmem, rfl⟩
    obtain ⟨comp, hcomp, hres⟩ := mem_mergeData.mp hmem
    obtain ⟨hvis, rfl⟩ := resolveComponent_some hres
    exact ⟨comp, hcomp, rfl, by rwa [← mergedOf_visible]⟩
  · rintro ⟨comp, hcomp, rfl, hvis⟩
    rw [← mergedOf_visible] at hvis
    exact ⟨resolvedOf preset.canvas.width preset.canvas.height data comp,
      mem_mergeData.mpr ⟨comp, hcomp, resolveComponent_of_visible hvis⟩, rfl⟩

/-! ## C5 -/

/-- C5 (amended): override merging is field-level shallow replacement, with
numeric style fields replacing only when strictly positive (`> 0` in the
source), not merely non-zero: for a resolver output under an override,
non-nil visibility replaces, non-empty title replaces, non-nil items replace
wholesale, and a non-nil style object replaces exactly the style fields that
are non-empty strings or strictly positive numbers. -/
theorem c5_field_level_merge (preset : Preset) (d : DataSpec) (rc : ResolvedComponent)
    (hrc : rc ∈ mergeData preset (some d)) :
    ∃ comp ∈ preset.components, rc.id = comp.id ∧
      ∀ over, d comp.id = some over →
        (rc.data.visible = if over.visible.isSome then over.visible else comp.defaults.visible) ∧
        (rc.data.title = if over.title ≠ "" then over.title else comp.defaults.title) ∧
        (rc.data.items = if over.items.isSome then over.items else comp.defaults.items) ∧
        ∀ so, over.style = some so →
          rc.style = mergeComponentStyle comp.style so ∧
          (rc.style.backgroundColor =
            if so.backgroundColor ≠ "" then so.backgroundColor else comp.style.backgroundColor) ∧
          (rc.style.backgroundImage =
            if so.backgroundImage ≠ "" then so.backgroundImage else comp.style.backgroundImage) ∧
          (rc.style.backgroundFit =
            if so.backgroundFit ≠ "" then so.backgroundFit else comp.style.backgroundFit) ∧
          (rc.style.borderColor =
            if so.borderColor ≠ "" then so.borderColor else comp.style.borderColor) ∧
          (rc.style.borderWidth =
            if so.borderWidth > 0 then so.borderWidth else comp.style.borderWidth) ∧
          (rc.style.cornerRadius =
            if so.cornerRadius > 0 then so.cornerRadius else comp.style.cornerRadius) ∧
          (rc.style.fontPath =
            if so.fontPath ≠ "" then so.fontPath else comp.style.fontPath) ∧
          (rc.style.fontSize =
            if so.fontSize > 0 then so.fontSize else comp.style.fontSize) ∧
          (rc.style.color = if so.color ≠ "" then so.color else comp.style.color) ∧
          (rc.style.lineHeight =
            if so.lineHeight > 0 then so.lineHeight else comp.style.lineHeight) ∧
          (rc.style.textAlign =
            if so.textAlign ≠ "" then so.textAlign else comp.style.textAlign) := by
  obtain ⟨comp, hcomp, hres⟩ := mem_mergeData.mp hrc
  obtain ⟨hvis, rfl⟩ := resolveComponent_some hres
  refine ⟨comp, hcomp, rfl, fun over hover => ?_⟩
  have hm : mergedOf (some d) comp = mergeComponentData comp.defaults over := by
    simp [mergedOf, hover]
  refine ⟨?_, ?_, ?_, fun so hso => ?_⟩
  · simp [resolvedOf, hm, mergeComponentData]
  · simp [resolvedOf, hm, mergeComponentData]
  · simp [resolvedOf, hm, mergeComponentData]
  · have hstyle : (mergedOf (some d) comp).style = some so := by
      simp [hm, mergeComponentData, hso]
    have hfin : finalStyleOf comp (mergedOf (some d) comp) = mergeComponentStyle comp.style so := by
      unfold finalStyleOf; rw [hstyle]
    refine ⟨by simp [resolvedOf, hfin], ?_, ?_, ?_, ?_, ?_, ?_, ?_, ?_, ?_, ?_, ?_⟩ <;>
      simp [resolvedOf, hfin, mergeComponentStyle]

def c5Base : ComponentStyle :=
  ⟨"#111111", "", "", "#222222", 3, 0, "", 24, "#ffffff", 3/2, "left"⟩

/-- A style override whose `borderWidth` is non-zero but negative. -/
def c5Over : ComponentStyle := ⟨"", "", "", "", -1, 0, "", 0, "", 0, ""⟩

/-- C5 counterexample: the claim says every non-zero numeric override field
replaces the preset value, but the source tests `> 0`, so a non-zero
negative `borderWidth` override is ignored and the preset value survives. -/
theorem c5_counterexample :
    c5Over.borderWidth ≠ 0 ∧
    (mergeComponentStyle c5Base c5Over).borderWidth = c5Base.borderWidth ∧
    (mergeComponentStyle c5Base c5Over).borderWidth ≠ c5Over.borderWidth := by
  decide

def c5WitComp : Component :=
  { id := "box", x := 0, y := 0, width := 1, height := 1, zIndex := 0,
    padding := 0, style := c5Base, defaults := ⟨none, "Default", none, none⟩ }

def c5WitPreset : Preset := ⟨⟨1000, 1000, ""⟩, [c5WitComp]⟩

def c5WitOver : ComponentData :=
  ⟨none, "New", some [⟨"text", "only item"⟩], some c5Over⟩

def c5WitData : DataSpec := fun i => if i = "box" then some c5WitOver else none

def c5WitRC : ResolvedComponent :=
  { id := "box", x := 0, y := 0, width := 1000, height := 1000, zIndex := 0,
    padding := 0, style := mergeComponentStyle c5Base c5Over,
    data := ⟨none, "New", some [⟨"text", "only item"⟩], some c5Over⟩ }

theorem c5_field_level_merge_witness :
    ∃ comp ∈ c5WitPreset.components, c5WitRC.id = comp.id ∧
      ∀ over, c5WitData comp.id = some over →
        (c5WitRC.data.visible = if over.visible.isSome then over.visible else comp.defaults.visible) ∧
        (c5WitRC.data.title = if over.title ≠ "" then over.title else comp.defaults.title) ∧
        (c5WitRC.data.items = if over.items.isSome then over.items else comp.defaults.items) ∧
        ∀ so, over.style = some so →
          c5WitRC.style = mergeComponentStyle comp.style so ∧
          (c5WitRC.style.backgroundColor =
            if so.backgroundColor ≠ "" then so.backgroundColor else comp.style.backgroundColor) ∧
          (c5WitRC.style.backgroundImage =
            if so.backgroundImage ≠ "" then so.backgroundImage else comp.style.backgroundImage) ∧
          (c5WitRC.style.backgroundFit =
            if so.backgroundFit ≠ "" then so.backgroundFit else comp.style.backgroundFit) ∧
          (c5WitRC.style.borderColor =
            if so.borderColor ≠ "" then so.borderColor else comp.style.borderColor) ∧
          (c5WitRC.style.borderWidth =
            if so.borderWidth > 0 then so.borderWidth else comp.style.borderWidth) ∧
          (c5WitRC.style.cornerRadius =
            if so.cornerRadius > 0 then so.cornerRadius else comp.style.cornerRadius) ∧
          (c5WitRC.style.fontPath =
            if so.fontPath ≠ "" then so.fontPath else comp.style.fontPath) ∧
          (c5WitRC.style.fontSize =
            if so.fontSize > 0 then so.fontSize else comp.style.fontSize) ∧
          (c5WitRC.style.color = if so.color ≠ "" then so.color else comp.style.color) ∧
          (c5WitRC.style.lineHeight =
            if so.lineHeight > 0 then so.lineHeight else comp.style.lineHeight) ∧
          (c5WitRC.style.textAlign =
            if so.textAlign ≠ "" then so.textAlign else comp.style.textAlign) :=
  c5_field_level_merge c5WitPreset c5WitData c5WitRC (by
    refine mem_mergeData.mpr ⟨c5WitComp, by simp [c5WitPreset], ?_⟩
    rw [resolveComponent_of_visible
      (by simp [mergedOf, c5WitData, c5WitComp, c5WitOver, mergeComponentData])]
    norm_num [resolvedOf, mergedOf, mergeComponentData, finalStyleOf,
      c5WitComp, c5WitPreset, c5WitData, c5WitOver, c5WitRC, goTrunc]
    decide)

/-! ## C7 -/

/-- C7 counterexample: the claim says a dpi strictly between 0 and 72 builds
the face at that dpi, but the snapshot implementation `dpi = max(dpi, 72)`
bumps dpi 50 up to 72. -/
theorem c7_counterexample :
    (0 : ℚ) < 50 ∧ (50 : ℚ) < 72 ∧
    getFaceDPISnapshot 50 = 72 ∧ getFaceDPISnapshot 50 ≠ 50 := by
  refine ⟨by norm_num, by norm_num, ?_, ?_⟩ <;>
    simp [getFaceDPISnapshot] <;> norm_num

/-- C7 (amended): the fonts.go `GetFace` substitutes 72 exactly when
`dpi ≤ 0` and otherwise uses the caller's dpi unchanged; the second snapshot
clamps with `max(dpi, 72)`, so every dpi below 72 — including any dpi
strictly between 0 and 72 — becomes 72, and only dpi ≥ 72 is used
unchanged. -/
theorem c7_dpi_handling (dpi : ℚ) :
    (dpi ≤ 0 → getFaceDPIFonts dpi = 72) ∧
    (0 < dpi → getFaceDPIFonts dpi = dpi) ∧
    (dpi ≤ 72 → getFaceDPISnapshot dpi = 72) ∧
    (72 ≤ dpi → getFaceDPISnapshot dpi = dpi) := by
  refine ⟨fun h => ?_, fun h => ?_, fun h => max_eq_right h, fun h => max_eq_left h⟩
  · unfold getFaceDPIFonts; rw [if_pos h]
  · unfold getFaceDPIFonts; rw [if_neg (not_le.mpr h)]

theorem c7_dpi_handling_witness :
    getFaceDPIFonts 50 = 50 ∧ getFaceDPIFonts (-1) = 72 ∧ getFaceDPISnapshot 100 = 100 :=
  ⟨(c7_dpi_handling 50).2.1 (by norm_num),
   (c7_dpi_handling (-1)).1 (by norm_num),
   (c7_dpi_handling 100).2.2.2 (by norm_num)⟩

/-! ## C8 -/

/-- C8: after loading, canvas dimensions are silently clamped to at least
1280×720 — a recognized named canvas preset sets the dimensions first, then
`Width = max(Width, 1280)` and `Height = max(Height, 720)`, so a smaller
declared canvas is enlarged, never kept or rejected. -/
theorem c8_canvas_clamped (c : Canvas) :
    1280 ≤ (normalizeCanvas c).width ∧ 720 ≤ (normalizeCanvas c).height ∧
    (∀ w h, canvasPresets.lookup c.preset = some (w, h) →
      (normalizeCanvas c).width = max w 1280 ∧
      (normalizeCanvas c).height = max h 720) ∧
    (canvasPresets.lookup c.preset = none →
      (normalizeCanvas c).width = max c.width 1280 ∧
      (normalizeCanvas c).height = max c.height 720) := by
  cases hl : canvasPresets.lookup c.preset with
  | none =>
    have hn : normalizeCanvas c = ⟨max c.width 1280, max c.height 720, c.preset⟩ := by
      simp [normalizeCanvas, hl]
    rw [hn]
    exact ⟨le_max_right _ _, le_max_right _ _,
      fun w' h' hwh => by simp_all, fun _ => ⟨rfl, rfl⟩⟩
  | some wh =>
    obtain ⟨w, h⟩ := wh
    have hn : normalizeCanvas c = ⟨max w 1280, max h 720, c.preset⟩ := by
      simp [normalizeCanvas, hl]
    rw [hn]
    refine ⟨le_max_right _ _, le_max_right _ _, fun w' h' hwh => ?_,
      fun hnone => by simp_all⟩
    obtain ⟨rfl, rfl⟩ := Prod.mk.injEq .. |>.mp (Option.some_inj.mp hwh)
    exact ⟨rfl, rfl⟩

/-- C8 witness: a canvas declared 1000×1000 (no named preset) is enlarged to
1280×1000. -/
theorem c8_canvas_clamped_witness :
    (normalizeCanvas ⟨1000, 1000, ""⟩).width = 1280 ∧
    (normalizeCanvas ⟨1000, 1000, ""⟩).height = 1000 := by
  have h := (c8_canvas_clamped ⟨1000, 1000, ""⟩).2.2.2 (by decide)
  simpa using h

/-! ## C9 -/

/-- C9 counterexample: a requested Duration of −1 is not clamped to 1 second
by `AVIGenerator.Generate` — the `uint32` conversion happens first, so the
container gets 4294967281 frame chunks, not 15. -/
theorem c9_counterexample :
    ((-1 : Int) < 1) ∧ aviTotalFrames (-1) = 4294967281 ∧ aviTotalFrames (-1) ≠ 15 := by
  refine ⟨by norm_num, ?_, ?_⟩ <;> decide

/-- C9 (amended): the dispatcher `generator.Generate` clamps with
`max(Duration, 1)`, so through it every Duration < 1 becomes 1 second;
`AVIGenerator.Generate` itself converts the duration to `uint32` before its
`< 1` test, so only a duration congruent to 0 mod 2^32 is clamped to one
second (15 frames) — any other duration, including wrapped negatives, is
used as-is. -/
theorem c9_duration_clamping (d : Int) :
    (d < 1 → generatorDur d = 1) ∧
    (1 ≤ d → generatorDur d = d) ∧
    (uint32ofInt d = 0 → aviTotalFrames d = 15) ∧
    (1 ≤ uint32ofInt d → aviDurationSec d = uint32ofInt d) := by
  refine ⟨fun h => max_eq_right h.le, fun h => max_eq_left h, fun h => ?_, fun h => ?_⟩
  · simp [aviTotalFrames, aviDurationSec, h, aviFps, w32]
  · simp only [aviDurationSec]
    rw [if_neg (by omega)]

theorem c9_duration_clamping_witness :
    generatorDur (-5) = 1 ∧ aviTotalFrames 0 = 15 ∧ aviDurationSec 3 = 3 :=
  ⟨(c9_duration_clamping (-5)).1 (by norm_num),
   (c9_duration_clamping 0).2.2.1 (by decide),
   by rw [(c9_duration_clamping 3).2.2.2 (by decide)]; decide⟩

/-! ## C2 -/

/-- An environment where every single write fails but encode, create and
sync succeed. -/
def c2FailEveryWrite : WriterOutcome := ⟨true, true, fun _ => false, true⟩

/-- C2 counterexample: a failing write does not abort the muxer and no error
is surfaced — `Generate` still returns success because every write helper
discards its error. -/
theorem c2_counterexample :
    c2FailEveryWrite.writeOk 0 = false ∧ aviGenerateErr c2FailEveryWrite = none :=
  ⟨rfl, rfl⟩

/-- C2 (amended): a compression (JPEG-encode) failure or an output-file
creation failure aborts `Generate` with a single wrapped error, and a
failing final `Sync` surfaces its error; but the helpers that emit the
container bytes discard each write's error, so the returned value is
entirely independent of the write outcomes and a partially written container
is reported as success whenever encode, create and sync succeed. -/
theorem c2_error_flow (o : WriterOutcome) :
    (o.encodeOk = false → aviGenerateErr o = some MuxError.encodeErr) ∧
    (o.encodeOk = true → o.createOk = false → aviGenerateErr o = some MuxError.createErr) ∧
    (o.encodeOk = true → o.createOk = true → o.syncOk = false →
      aviGenerateErr o = some MuxError.syncErr) ∧
    (o.encodeOk = true → o.createOk = true → o.syncOk = true → aviGenerateErr o = none) ∧
    (∀ g : Nat → Bool,
      aviGenerateErr ⟨o.encodeOk, o.createOk, g, o.syncOk⟩ = aviGenerateErr o) := by
  unfold aviGenerateErr
  exact ⟨fun h => by simp [h], fun h1 h2 => by simp [h1, h2],
    fun h1 h2 h3 => by simp [h1, h2, h3], fun h1 h2 h3 => by simp [h1, h2, h3],
    fun g => rfl⟩

theorem c2_error_flow_witness :
    aviGenerateErr ⟨true, true, fun _ => true, false⟩ = some MuxError.syncErr :=
  (c2_error_flow ⟨true, true, fun _ => true, false⟩).2.2.1 rfl rfl rfl

/-! ## C10 -/

/-- C10: `parseHexColorAlpha` is total and reports no error: any input whose
byte length after stripping an optional `#` is neither 6 nor 8 yields opaque
white, and every 6-byte input yields alpha 255. -/
theorem c10_parse_hex_total (s : List Nat) :
    ((stripHash s).length ≠ 6 → (stripHash s).length ≠ 8 →
      parseHexColorAlpha s = ⟨255, 255, 255, 255⟩) ∧
    ((stripHash s).length = 6 → (parseHexColorAlpha s).a = 255) := by
  unfold parseHexColorAlpha
  rcases h : stripHash s with
    _ | ⟨a, _ | ⟨b, _ | ⟨c, _ | ⟨d, _ | ⟨e, _ | ⟨f, _ | ⟨g, _ | ⟨i, _ | ⟨j, tl⟩⟩⟩⟩⟩⟩⟩⟩⟩ <;>
    simp_all

theorem c10_parse_hex_total_witness :
    parseHexColorAlpha [35, 48, 48] = ⟨255, 255, 255, 255⟩ ∧
    (parseHexColorAlpha [102, 102, 48, 48, 57, 57]).a = 255 :=
  ⟨(c10_parse_hex_total [35, 48, 48]).1 (by decide) (by decide),
   (c10_parse_hex_total [102, 102, 48, 48, 57, 57]).2 (by decide)⟩

/-! ## C6 — image fit modes (`pkg/generator/avi.go:543-612`, renderer snapshot)

`image.Rectangle` is modelled by integer bounds (Go's `image.Rect`
canonicalizes, so `Dx`, `Dy` are non-negative); Go `float64` scale
arithmetic is modelled exactly over `ℚ`; Go's `int(...)` conversion is
`goTrunc` and Go's integer `/` is `Int.tdiv`.  The two draw loops are
modelled as the list of (destination pixel, sampled source pixel) pairs
passed to `blendPixel`. -/

structure Rect where
  minX : Int
  minY : Int
  maxX : Int
  maxY : Int
  deriving Repr, DecidableEq

def Rect.dx (r : Rect) : Int := r.maxX - r.minX

def Rect.dy (r : Rect) : Int := r.maxY - r.minY

/-- `scale := min(dstDx/srcDx, dstDy/srcDy)` (avi.go:548-551). -/
def containScale (dstB srcB : Rect) : ℚ :=
  min ((dstB.dx : ℚ) / (srcB.dx : ℚ)) ((dstB.dy : ℚ) / (srcB.dy : ℚ))

/-- `newW := int(float64(srcB.Dx()) * scale)` (avi.go:553). -/
def containNewW (dstB srcB : Rect) : Int :=
  goTrunc ((srcB.dx : ℚ) * containScale dstB srcB)

/-- `newH := int(float64(srcB.Dy()) * scale)` (avi.go:554). -/
def containNewH (dstB srcB : Rect) : Int :=
  goTrunc ((srcB.dy : ℚ) * containScale dstB srcB)

/-- `offX := dstB.Min.X + (dstB.Dx()-newW)/2` (avi.go:555), Go integer
division truncating toward zero. -/
def containOffX (dstB srcB : Rect) : Int :=
  dstB.minX + Int.tdiv (dstB.dx - containNewW dstB srcB) 2

/-- `offY := dstB.Min.Y + (dstB.Dy()-newH)/2` (avi.go:556). -/
def containOffY (dstB srcB : Rect) : Int :=
  dstB.minY + Int.tdiv (dstB.dy - containNewH dstB srcB) 2

/-- The source pixel sampled for loop indices `(x, y)` in `drawContain`
(avi.go:560-567): truncated division by the scale, clamped to the source's
upper bounds only. -/
def containSrcPoint (dstB srcB : Rect) (x y : Int) : Int × Int :=
  let srcX0 := srcB.minX + goTrunc ((x : ℚ) / containScale dstB srcB)
  let srcY0 := srcB.minY + goTrunc ((y : ℚ) / containScale dstB srcB)
  (if srcX0 ≥ srcB.maxX then srcB.maxX - 1 else srcX0,
   if srcY0 ≥ srcB.maxY then srcB.maxY - 1 else srcY0)

/-- One iteration of `drawContain`'s loop body at indices `(x, y) = (xn, yn)`:
the pixel drawn at `(offX+x, offY+y)` with its sampled source pixel. -/
def containPair (dstB srcB : Rect) (yn xn : Nat) : (Int × Int) × (Int × Int) :=
  ((containOffX dstB srcB + (xn : Int), containOffY dstB srcB + (yn : Int)),
   containSrcPoint dstB srcB (xn : Int) (yn : Int))

/-- The (destination, source) pixel pairs drawn by `drawContain`
(avi.go:558-572): `y` over `[0, newH)`, `x` over `[0, newW)`. -/
def drawContainPairs (dstB srcB : Rect) : List ((Int × Int) × (Int × Int)) :=
  (List.range (containNewH dstB srcB).toNat).flatMap (fun yn =>
    (List.range (containNewW dstB srcB).toNat).map (containPair dstB srcB yn))

/-- `scale := max(dstDx/srcDx, dstDy/srcDy)` (avi.go:580-583). -/
def coverScale (dstB srcB : Rect) : ℚ :=
  max ((dstB.dx : ℚ) / (srcB.dx : ℚ)) ((dstB.dy : ℚ) / (srcB.dy : ℚ))

/-- `newW := int(float64(srcB.Dx()) * scale)` (avi.go:585). -/
def coverNewW (dstB srcB : Rect) : Int :=
  goTrunc ((srcB.dx : ℚ) * coverScale dstB srcB)

/-- `newH := int(float64(srcB.Dy()) * scale)` (avi.go:586). -/
def coverNewH (dstB srcB : Rect) : Int :=
  goTrunc ((srcB.dy : ℚ) * coverScale dstB srcB)

/-- `offX := (newW - dstB.Dx()) / 2` (avi.go:588). -/
def coverOffX (dstB srcB : Rect) : Int :=
  Int.tdiv (coverNewW dstB srcB - dstB.dx) 2

/-- `offY := (newH - dstB.Dy()) / 2` (avi.go:589). -/
def coverOffY (dstB srcB : Rect) : Int :=
  Int.tdiv (coverNewH dstB srcB - dstB.dy) 2

/-- The source pixel sampled for the destination pixel `(x, y)` in
`drawCover` (avi.go:593-606): truncated division by the scale, clamped to
the source bounds on both sides. -/
def coverSrcPoint (dstB srcB : Rect) (x y : Int) : Int × Int :=
  let srcX0 := srcB.minX + goTrunc (((x - dstB.minX + coverOffX dstB srcB : Int) : ℚ) / coverScale dstB srcB)
  let srcY0 := srcB.minY + goTrunc (((y - dstB.minY + coverOffY dstB srcB : Int) : ℚ) / coverScale dstB srcB)
  let srcX1 := if srcX0 < srcB.minX then srcB.minX else srcX0
  let srcY1 := if srcY0 < srcB.minY then srcB.minY else srcY0
  (if srcX1 ≥ srcB.maxX then srcB.maxX - 1 else srcX1,
   if srcY1 ≥ srcB.maxY then srcB.maxY - 1 else srcY1)

/-- One iteration of `drawCover`'s loop body at `(x, y) =
(minX + xn, minY + yn)`: the destination pixel with its sampled source
pixel. -/
def coverPair (dstB srcB : Rect) (yn xn : Nat) : (Int × Int) × (Int × Int) :=
  ((dstB.minX + (xn : Int), dstB.minY + (yn : Int)),
   coverSrcPoint dstB srcB (dstB.minX + (xn : Int)) (dstB.minY + (yn : Int)))

/-- The (destination, source) pixel pairs drawn by `drawCover`
(avi.go:591-611): `y` over `[dstB.Min.Y, dstB.Max.Y)`, `x` over
`[dstB.Min.X, dstB.Max.X)`. -/
def drawCoverPairs (dstB srcB : Rect) : List ((Int × Int) × (Int × Int)) :=
  (List.range dstB.dy.toNat).flatMap (fun yn =>
    (List.range dstB.dx.toNat).map (coverPair dstB srcB yn))

theorem tdiv2_bounds {a : Int} (ha : 0 ≤ a) : 0 ≤ a.tdiv 2 ∧ a.tdiv 2 ≤ a := by
  rw [Int.tdiv_eq_ediv ha (by norm_num)]
  exact ⟨Int.ediv_nonneg ha (by norm_num), Int.ediv_le_self _ ha⟩

theorem containScale_nonneg {dstB srcB : Rect} (hsx : 0 < srcB.dx) (hsy : 0 < srcB.dy)
    (hdx : 0 ≤ dstB.dx) (hdy : 0 ≤ dstB.dy) : 0 ≤ containScale dstB srcB := by
  apply le_min
  · exact div_nonneg (by exact_mod_cast hdx) (by exact_mod_cast hsx.le)
  · exact div_nonneg (by exact_mod_cast hdy) (by exact_mod_cast hsy.le)

theorem containNewW_nonneg {dstB srcB : Rect} (hsx : 0 < srcB.dx) (hsy : 0 < srcB.dy)
    (hdx : 0 ≤ dstB.dx) (hdy : 0 ≤ dstB.dy) : 0 ≤ containNewW dstB srcB := by
  have hs : 0 ≤ containScale dstB srcB := containScale_nonneg hsx hsy hdx hdy
  have hm : (0 : ℚ) ≤ (srcB.dx : ℚ) * containScale dstB srcB :=
    mul_nonneg (by exact_mod_cast hsx.le) hs
  unfold containNewW
  rw [goTrunc_of_nonneg hm]
  exact Int.le_floor.mpr (by exact_mod_cast hm)

theorem containNewH_nonneg {dstB srcB : Rect} (hsx : 0 < srcB.dx) (hsy : 0 < srcB.dy)
    (hdx : 0 ≤ dstB.dx) (hdy : 0 ≤ dstB.dy) : 0 ≤ containNewH dstB srcB := by
  have hs : 0 ≤ containScale dstB srcB := containScale_nonneg hsx hsy hdx hdy
  have hm : (0 : ℚ) ≤ (srcB.dy : ℚ) * containScale dstB srcB :=
    mul_nonneg (by exact_mod_cast hsy.le) hs
  unfold containNewH
  rw [goTrunc_of_nonneg hm]
  exact Int.le_floor.mpr (by exact_mod_cast hm)

theorem containNewW_le {dstB srcB : Rect} (hsx : 0 < srcB.dx) (hsy : 0 < srcB.dy)
    (hdx : 0 ≤ dstB.dx) (hdy : 0 ≤ dstB.dy) : containNewW dstB srcB ≤ dstB.dx := by
  have hs : 0 ≤ containScale dstB srcB := containScale_nonneg hsx hsy hdx hdy
  have hm : (0 : ℚ) ≤ (srcB.dx : ℚ) * containScale dstB srcB :=
    mul_nonneg (by exact_mod_cast hsx.le) hs
  have hub : (srcB.dx : ℚ) * containScale dstB srcB ≤ (dstB.dx : ℚ) := by
    have h1 : containScale dstB srcB ≤ (dstB.dx : ℚ) / (srcB.dx : ℚ) := min_le_left _ _
    have h2 : (srcB.dx : ℚ) * containScale dstB srcB ≤
        (srcB.dx : ℚ) * ((dstB.dx : ℚ) / (srcB.dx : ℚ)) :=
      mul_le_mul_of_nonneg_left h1 (by exact_mod_cast hsx.le)
    have h3 : (srcB.dx : ℚ) * ((dstB.dx : ℚ) / (srcB.dx : ℚ)) = (dstB.dx : ℚ) := by
      rw [mul_comm]
      exact div_mul_cancel₀ _ (by exact_mod_cast hsx.ne')
    rw [h3] at h2
    exact h2
  unfold containNewW
  rw [goTrunc_of_nonneg hm]
  calc ⌊(srcB.dx : ℚ) * containScale dstB srcB⌋ ≤ ⌊(dstB.dx : ℚ)⌋ := Int.floor_mono hub
  _ = dstB.dx := Int.floor_intCast _

theorem containNewH_le {dstB srcB : Rect} (hsx : 0 < srcB.dx) (hsy : 0 < srcB.dy)
    (hdx : 0 ≤ dstB.dx) (hdy : 0 ≤ dstB.dy) : containNewH dstB srcB ≤ dstB.dy := by
  have hs : 0 ≤ containScale dstB srcB := containScale_nonneg hsx hsy hdx hdy
  have hm : (0 : ℚ) ≤ (srcB.dy : ℚ) * containScale dstB srcB :=
    mul_nonneg (by exact_mod_cast hsy.le) hs
  have hub : (srcB.dy : ℚ) * containScale dstB srcB ≤ (dstB.dy : ℚ) := by
    have h1 : containScale dstB srcB ≤ (dstB.dy : ℚ) / (srcB.dy : ℚ) := min_le_right _ _
    have h2 : (srcB.dy : ℚ) * containScale dstB srcB ≤
        (srcB.dy : ℚ) * ((dstB.dy : ℚ) / (srcB.dy : ℚ)) :=
      mul_le_mul_of_nonneg_left h1 (by exact_mod_cast hsy.le)
    have h3 : (srcB.dy : ℚ) * ((dstB.dy : ℚ) / (srcB.dy : ℚ)) = (dstB.dy : ℚ) := by
      rw [mul_comm]
      exact div_mul_cancel₀ _ (by exact_mod_cast hsy.ne')
    rw [h3] at h2
    exact h2
  unfold containNewH
  rw [goTrunc_of_nonneg hm]
  calc ⌊(srcB.dy : ℚ) * containScale dstB srcB⌋ ≤ ⌊(dstB.dy : ℚ)⌋ := Int.floor_mono hub
  _ = dstB.dy := Int.floor_intCast _

/-- C6: with a non-empty source image and a well-formed destination
rectangle, `contain` (scale = min, centered) never draws a pixel outside the
destination rectangle, and `cover` (scale = max, centered and cropped, with
source samples clamped to the source bounds) draws every pixel of the
destination rectangle, sampling only valid source coordinates. -/
theorem c6_fit_modes (dstB srcB : Rect)
    (hsx : 0 < srcB.dx) (hsy : 0 < srcB.dy)
    (hdx : 0 ≤ dstB.dx) (hdy : 0 ≤ dstB.dy) :
    (∀ pr ∈ drawContainPairs dstB srcB,
      dstB.minX ≤ pr.1.1 ∧ pr.1.1 < dstB.maxX ∧
      dstB.minY ≤ pr.1.2 ∧ pr.1.2 < dstB.maxY) ∧
    (∀ x y : Int, dstB.minX ≤ x → x < dstB.maxX → dstB.minY ≤ y → y < dstB.maxY →
      ((x, y), coverSrcPoint dstB srcB x y) ∈ drawCoverPairs dstB srcB ∧
      srcB.minX ≤ (coverSrcPoint dstB srcB x y).1 ∧
      (coverSrcPoint dstB srcB x y).1 < srcB.maxX ∧
      srcB.minY ≤ (coverSrcPoint dstB srcB x y).2 ∧
      (coverSrcPoint dstB srcB x y).2 < srcB.maxY) := by
  have hWnn := containNewW_nonneg hsx hsy hdx hdy
  have hHnn := containNewH_nonneg hsx hsy hdx hdy
  have hWle := containNewW_le hsx hsy hdx hdy
  have hHle := containNewH_le hsx hsy hdx hdy
  obtain ⟨ht1, ht2⟩ := tdiv2_bounds (a := dstB.dx - containNewW dstB srcB) (by omega)
  obtain ⟨ht3, ht4⟩ := tdiv2_bounds (a := dstB.dy - containNewH dstB srcB) (by omega)
  have hoX : containOffX dstB srcB =
      dstB.minX + Int.tdiv (dstB.dx - containNewW dstB srcB) 2 := rfl
  have hoY : containOffY dstB srcB =
      dstB.minY + Int.tdiv (dstB.dy - containNewH dstB srcB) 2 := rfl
  have hdxe : dstB.dx = dstB.maxX - dstB.minX := rfl
  have hdye : dstB.dy = dstB.maxY - dstB.minY := rfl
  constructor
  · intro pr hpr
    unfold drawContainPairs at hpr
    rw [List.mem_flatMap] at hpr
    obtain ⟨yn, hyn, hin⟩ := hpr
    rw [List.mem_map] at hin
    obtain ⟨xn, hxn, heq⟩ := hin
    rw [List.mem_range] at hyn hxn
    subst heq
    have hxn' : (xn : Int) < containNewW dstB srcB := by omega
    have hyn' : (yn : Int) < containNewH dstB srcB := by omega
    refine ⟨?_, ?_, ?_, ?_⟩
    · show dstB.minX ≤ containOffX dstB srcB + (xn : Int)
      omega
    · show containOffX dstB srcB + (xn : Int) < dstB.maxX
      omega
    · show dstB.minY ≤ containOffY dstB srcB + (yn : Int)
      omega
    · show containOffY dstB srcB + (yn : Int) < dstB.maxY
      omega
  · intro x y hx1 hx2 hy1 hy2
    refine ⟨?_, ?_⟩
    · unfold drawCoverPairs
      rw [List.mem_flatMap]
      refine ⟨(y - dstB.minY).toNat, List.mem_range.mpr (by unfold Rect.dy; omega), ?_⟩
      rw [List.mem_map]
      refine ⟨(x - dstB.minX).toNat, List.mem_range.mpr (by unfold Rect.dx; omega), ?_⟩
      unfold coverPair
      have hxe : dstB.minX + ((x - dstB.minX).toNat : Int) = x := by omega
      have hye : dstB.minY + ((y - dstB.minY).toNat : Int) = y := by omega
      rw [hxe, hye]
    · have hsx' : srcB.minX < srcB.maxX := by unfold Rect.dx at hsx; omega
      have hsy' : srcB.minY < srcB.maxY := by unfold Rect.dy at hsy; omega
      refine ⟨?_, ?_, ?_, ?_⟩ <;> simp only [coverSrcPoint] <;> split_ifs <;> omega

theorem c6_fit_modes_witness :
    (∀ pr ∈ drawContainPairs ⟨0, 0, 10, 8⟩ ⟨2, 3, 6, 5⟩,
      (⟨0, 0, 10, 8⟩ : Rect).minX ≤ pr.1.1 ∧ pr.1.1 < (⟨0, 0, 10, 8⟩ : Rect).maxX ∧
      (⟨0, 0, 10, 8⟩ : Rect).minY ≤ pr.1.2 ∧ pr.1.2 < (⟨0, 0, 10, 8⟩ : Rect).maxY) ∧
    (∀ x y : Int, (⟨0, 0, 10, 8⟩ : Rect).minX ≤ x → x < (⟨0, 0, 10, 8⟩ : Rect).maxX →
      (⟨0, 0, 10, 8⟩ : Rect).minY ≤ y → y < (⟨0, 0, 10, 8⟩ : Rect).maxY →
      ((x, y), coverSrcPoint ⟨0, 0, 10, 8⟩ ⟨2, 3, 6, 5⟩ x y) ∈
        drawCoverPairs ⟨0, 0, 10, 8⟩ ⟨2, 3, 6, 5⟩ ∧
      (⟨2, 3, 6, 5⟩ : Rect).minX ≤ (coverSrcPoint ⟨0, 0, 10, 8⟩ ⟨2, 3, 6, 5⟩ x y).1 ∧
      (coverSrcPoint ⟨0, 0, 10, 8⟩ ⟨2, 3, 6, 5⟩ x y).1 < (⟨2, 3, 6, 5⟩ : Rect).maxX ∧
      (⟨2, 3, 6, 5⟩ : Rect).minY ≤ (coverSrcPoint ⟨0, 0, 10, 8⟩ ⟨2, 3, 6, 5⟩ x y).2 ∧
      (coverSrcPoint ⟨0, 0, 10, 8⟩ ⟨2, 3, 6, 5⟩ x y).2 < (⟨2, 3, 6, 5⟩ : Rect).maxY) :=
  c6_fit_modes ⟨0, 0, 10, 8⟩ ⟨2, 3, 6, 5⟩ (by decide) (by decide) (by decide) (by decide)

/-! ## C1 — the AVI container byte stream (`pkg/generator/avi.go:25-209`)

The emitted file is modelled as a list of byte values.  `writeUint32` /
`writeUint16` write little-endian bytes of the value reduced mod `2^32` /
`2^16` (`u32le` and `u16le` take the residues per byte, which is the same
thing).  Because `%` commutes with `+` and `*`, wrapping a whole `uint32`
expression once (`w32`) agrees with Go's per-operation wrapping. -/

/-- `writeUint32`: the four little-endian bytes of `v mod 2^32`. -/
def u32le (v : Nat) : List Nat :=
  [v % 256, v / 256 % 256, v / 65536 % 256, v / 16777216 % 256]

/-- `writeUint16`: the two little-endian bytes of `v mod 2^16`. -/
def u16le (v : Nat) : List Nat :=
  [v % 256, v / 256 % 256]

/-- `writeFourCC`: a four-character tag as its ASCII bytes. -/
def fourCC (s : String) : List Nat :=
  s.data.map Char.toNat

/-- `jpegSize := uint32(len(jpegData))` (avi.go:61). -/
def jpegSizeOf (data : List Nat) : Nat :=
  w32 data.length

/-- avi.go:64-67: `paddedJPEGSize = jpegSize + 1` when `jpegSize` is odd. -/
def paddedJPEGSize (data : List Nat) : Nat :=
  if jpegSizeOf data % 2 ≠ 0 then w32 (jpegSizeOf data + 1) else jpegSizeOf data

/-- `frameChunkSize := 8 + paddedJPEGSize` (avi.go:81). -/
def frameChunkSize (data : List Nat) : Nat :=
  w32 (8 + paddedJPEGSize data)

/-- `moviSize := 4 + totalFrames*frameChunkSize` (avi.go:82). -/
def moviSize (d : Int) (data : List Nat) : Nat :=
  w32 (4 + aviTotalFrames d * frameChunkSize data)

/-- `idx1Size := 8 + totalFrames*16` (avi.go:83). -/
def idx1Size (d : Int) : Nat :=
  w32 (8 + aviTotalFrames d * 16)

/-- `hdrlSize := uint32(4 + 64 + 124)` (avi.go:109). -/
def hdrlSize : Nat := 4 + 64 + 124

/-- `fileSize := 4 + (8+hdrlSize) + (8+moviSize) + idx1Size` (avi.go:110). -/
def aviFileSize (d : Int) (data : List Nat) : Nat :=
  w32 (4 + (8 + hdrlSize) + (8 + moviSize d data) + idx1Size d)

/-- The `avih` main header chunk (avi.go:122-137).  `maxBytesPerSec` is
`uint32(float64(jpegSize) * float64(fps))`; `float64` is exact on these
integer products (far below `2^53`), so the value is `jpegSize * fps`
wrapped. -/
def avihChunk (d : Int) (data : List Nat) (w h : Nat) : List Nat :=
  fourCC "avih" ++ u32le 56 ++
  u32le (1000000 / aviFps) ++
  u32le (w32 (jpegSizeOf data * aviFps)) ++
  u32le 0 ++
  u32le 0x10 ++
  u32le (aviTotalFrames d) ++
  u32le 0 ++
  u32le 1 ++
  u32le (jpegSizeOf data) ++
  u32le w ++
  u32le h ++
  u32le 0 ++ u32le 0 ++ u32le 0 ++ u32le 0

/-- The `strh` stream header chunk (avi.go:145-163). -/
def strhChunk (d : Int) (data : List Nat) (w h : Nat) : List Nat :=
  fourCC "strh" ++ u32le 56 ++
  fourCC "vids" ++ fourCC "MJPG" ++
  u32le 0 ++ u16le 0 ++ u16le 0 ++
  u32le 0 ++ u32le 1 ++ u32le aviFps ++ u32le 0 ++
  u32le (aviTotalFrames d) ++
  u32le (jpegSizeOf data) ++
  u32le 0 ++ u32le 0 ++
  u16le 0 ++ u16le 0 ++ u16le w ++ u16le h

/-- The `strf` stream format chunk (avi.go:166-178). -/
def strfChunk (w h : Nat) : List Nat :=
  fourCC "strf" ++ u32le 40 ++
  u32le 40 ++ u32le w ++ u32le h ++
  u16le 1 ++ u16le 24 ++ fourCC "MJPG" ++
  u32le (w32 (w * h * 3)) ++
  u32le 0 ++ u32le 0 ++ u32le 0 ++ u32le 0

/-- Everything before the `movi` LIST: RIFF wrapper header plus the `hdrl`
LIST (avi.go:112-178). -/
def aviHeaderBytes (d : Int) (data : List Nat) (w h : Nat) : List Nat :=
  fourCC "RIFF" ++ u32le (aviFileSize d data) ++ fourCC "AVI " ++
  fourCC "LIST" ++ u32le hdrlSize ++ fourCC "hdrl" ++
  avihChunk d data w h ++
  fourCC "LIST" ++ u32le 116 ++ fourCC "strl" ++
  strhChunk d data w h ++
  strfChunk w h

/-- One frame chunk (avi.go:186-194): tag, unpadded size field, payload,
and a single zero pad byte iff the payload size is odd. -/
def frameChunk (data : List Nat) : List Nat :=
  fourCC "00dc" ++ u32le (jpegSizeOf data) ++ data ++
    (if jpegSizeOf data % 2 ≠ 0 then [0] else [])

/-- The `movi` LIST (avi.go:181-194): header plus `totalFrames` identical
frame chunks (the loop body is identical each iteration). -/
def moviBytes (d : Int) (data : List Nat) : List Nat :=
  fourCC "LIST" ++ u32le (moviSize d data) ++ fourCC "movi" ++
  (List.replicate (aviTotalFrames d) (frameChunk data)).flatten

/-- One 16-byte index entry (avi.go:202-205): tag, `AVIIF_KEYFRAME` flag,
offset from the data-block start, unpadded frame size. -/
def idxEntry (data : List Nat) (offset : Nat) : List Nat :=
  fourCC "00dc" ++ u32le 0x10 ++ u32le offset ++ u32le (jpegSizeOf data)

/-- The index-entry loop (avi.go:200-207): `moviOffset` starts at 4 and
grows by `frameChunkSize` per frame, in `uint32` arithmetic. -/
def idxEntries (data : List Nat) : Nat → Nat → List Nat
  | 0, _ => []
  | n + 1, off => idxEntry data off ++ idxEntries data n (w32 (off + frameChunkSize data))

/-- The trailing `idx1` block (avi.go:197-207). -/
def idx1Bytes (d : Int) (data : List Nat) : List Nat :=
  fourCC "idx1" ++ u32le (w32 (aviTotalFrames d * 16)) ++
  idxEntries data (aviTotalFrames d) 4

/-- The complete byte stream emitted by `AVIGenerator.Generate`
(avi.go:112-207) for a frame payload `data` and image dimensions `w × h`. -/
def aviGenerateBytes (d : Int) (data : List Nat) (w h : Nat) : List Nat :=
  aviHeaderBytes d data w h ++ moviBytes d data ++ idx1Bytes d data

/-- Decode a little-endian `uint32` from the first four bytes of a list. -/
def readU32le (bs : List Nat) : Nat :=
  bs.getD 0 0 + 256 * bs.getD 1 0 + 65536 * bs.getD 2 0 + 16777216 * bs.getD 3 0

theorem u32le_decode (v : Nat) (rest : List Nat) :
    readU32le (u32le v ++ rest) = v % 4294967296 := by
  show v % 256 + 256 * (v / 256 % 256) + 65536 * (v / 65536 % 256) +
      16777216 * (v / 16777216 % 256) = v % 4294967296
  have h0 : (4294967296 : Nat) = 256 * 16777216 := by norm_num
  have h1 : (16777216 : Nat) = 256 * 65536 := by norm_num
  have h2 : (65536 : Nat) = 256 * 256 := by norm_num
  have e1 : v / 256 / 256 = v / 65536 := by rw [Nat.div_div_eq_div_mul]
  have e2 : v / 65536 / 256 = v / 16777216 := by rw [Nat.div_div_eq_div_mul]
  calc v % 256 + 256 * (v / 256 % 256) + 65536 * (v / 65536 % 256) +
      16777216 * (v / 16777216 % 256)
      = v % 256 + 256 * (v / 256 % 256 + 256 * (v / 65536 % 256 +
          256 * (v / 65536 / 256 % 256))) := by rw [e2]; ring
    _ = v % 256 + 256 * (v / 256 % 256 + 256 * (v / 65536 % (256 * 256))) := by
        rw [← Nat.mod_mul]
    _ = v % 256 + 256 * (v / 256 % (256 * 65536)) := by
        rw [← h2, ← e1, ← Nat.mod_mul]
    _ = v % (256 * 16777216) := by rw [← h1, ← Nat.mod_mul]
    _ = v % 4294967296 := by rw [← h0]

theorem length_u32le (v : Nat) : (u32le v).length = 4 := rfl

theorem length_u16le (v : Nat) : (u16le v).length = 2 := rfl

theorem length_fourCC (s : String) : (fourCC s).length = s.data.length :=
  List.length_map _ _

theorem length_idxEntry (data : List Nat) (off : Nat) :
    (idxEntry data off).length = 16 := rfl

theorem aviHeaderBytes_length (d : Int) (data : List Nat) (w h : Nat) :
    (aviHeaderBytes d data w h).length = 212 := by
  simp only [aviHeaderBytes, avihChunk, strhChunk, strfChunk, List.length_append,
    length_u32le, length_u16le, length_fourCC]
  rfl

theorem length_flatten_replicate {α : Type} (n : Nat) (l : List α) :
    (List.replicate n l).flatten.length = n * l.length := by
  induction n with
  | zero => simp
  | succ k ih =>
    rw [List.replicate_succ, List.flatten_cons, List.length_append, ih, Nat.succ_mul]
    ring

theorem drop_flatten_replicate {α : Type} (l : List α) :
    ∀ i n, i ≤ n →
      (List.replicate n l).flatten.drop (i * l.length) =
        (List.replicate (n - i) l).flatten := by
  intro i
  induction i with
  | zero => intro n _; simp
  | succ k ih =>
    intro n hn
    cases n with
    | zero => omega
    | succ m =>
      rw [List.replicate_succ, List.flatten_cons,
        show (k + 1) * l.length = l.length + k * l.length by ring,
        List.drop_append, Nat.succ_sub_succ]
      exact ih m (by omega)

theorem length_idxEntries (data : List Nat) :
    ∀ n off, (idxEntries data n off).length = n * 16 := by
  intro n
  induction n with
  | zero => intro off; rfl
  | succ m ih =>
    intro off
    rw [idxEntries, List.length_append, length_idxEntry, ih, Nat.succ_mul]
    ring

/-- Helper: dropping an 8-byte prefix of an append. -/
theorem drop8_of_len8 {a rest : List Nat} (h : a.length = 8) :
    (a ++ rest).drop 8 = rest := by
  rw [← h, List.drop_left]

/-- The offset field written in the `i`-th index entry: starting value plus
`i` accumulated (wrapped) frame-chunk-size increments. -/
theorem idxEntries_offset_field (data : List Nat) :
    ∀ n off i, i < n →
      readU32le ((idxEntries data n off).drop (16 * i + 8)) =
        w32 (off + i * frameChunkSize data) := by
  intro n
  induction n with
  | zero => intro off i h; omega
  | succ m ih =>
    intro off i hi
    cases i with
    | zero =>
      have regroup :
          idxEntry data off ++ idxEntries data m (w32 (off + frameChunkSize data)) =
            (fourCC "00dc" ++ u32le 0x10) ++
              (u32le off ++ (u32le (jpegSizeOf data) ++
                idxEntries data m (w32 (off + frameChunkSize data)))) := by
        simp [idxEntry]
      rw [idxEntries, show 16 * 0 + 8 = 8 by norm_num, regroup,
        drop8_of_len8 (a := fourCC "00dc" ++ u32le 0x10) rfl, u32le_decode]
      simp [w32]
    | succ k =>
      rw [idxEntries,
        show 16 * (k + 1) + 8 = (idxEntry data off).length + (16 * k + 8) by
          rw [length_idxEntry]; ring,
        List.drop_append, ih _ k (by omega)]
      show w32 (w32 (off + frameChunkSize data) + k * frameChunkSize data) = _
      unfold w32
      rw [Nat.mod_add_mod]
      congr 1
      ring

theorem jpegSizeOf_parity (data : List Nat) :
    jpegSizeOf data % 2 = data.length % 2 := by
  unfold jpegSizeOf w32
  exact Nat.mod_mod_of_dvd _ (by norm_num)

theorem len00dc : (fourCC "00dc").length = 4 := rfl

theorem frameChunk_regroup (data : List Nat) :
    frameChunk data =
      fourCC "00dc" ++ (u32le (jpegSizeOf data) ++
        (data ++ (if jpegSizeOf data % 2 ≠ 0 then [0] else []))) := by
  simp [frameChunk]

theorem frameChunk_length (data : List Nat) :
    (frameChunk data).length = 8 + data.length + data.length % 2 := by
  have hp := jpegSizeOf_parity data
  by_cases h : jpegSizeOf data % 2 ≠ 0 <;>
    simp [frameChunk, h, List.length_append, len00dc, length_u32le] <;> omega

theorem moviBytes_regroup (d : Int) (data : List Nat) :
    moviBytes d data =
      fourCC "LIST" ++ (u32le (moviSize d data) ++
        (fourCC "movi" ++ (List.replicate (aviTotalFrames d) (frameChunk data)).flatten)) := by
  simp [moviBytes]

theorem idx1Bytes_regroup (d : Int) (data : List Nat) :
    idx1Bytes d data =
      fourCC "idx1" ++ (u32le (w32 (aviTotalFrames d * 16)) ++
        idxEntries data (aviTotalFrames d) 4) := by
  simp [idx1Bytes]

theorem aviGenerateBytes_regroup (d : Int) (data : List Nat) (w h : Nat) :
    aviGenerateBytes d data w h =
      aviHeaderBytes d data w h ++ (moviBytes d data ++ idx1Bytes d data) := by
  simp [aviGenerateBytes]

/-- C1 (amended): for a duration below `2^32` seconds and a compressed frame
small enough that the computed file size stays below `2^32` (the source's
`uint32` size arithmetic wraps beyond that), the emitted container is
internally consistent: there are `durationSeconds*15` frame chunks; each
frame chunk spans `8 + F + (1 if F odd)` bytes, declares the unpadded size
`F` and carries a zero pad byte exactly when `F` is odd; the data block
declares `4 + frames*frameChunkSize` and that equals its actual payload
span; the index declares `frames*16` bytes of entries; the RIFF size field
equals the count of all bytes after the initial 8-byte wrapper header; and
the index offsets start at 4, grow by the constant frame-chunk span, and
each lands exactly on a frame chunk's tag (whose size field is `F`) when
walked from the start of the data block's payload. -/
theorem c1_container_layout (d : Int) (data : List Nat) (w h : Nat)
    (hd1 : 1 ≤ d) (hd2 : d < 4294967296)
    (hbound : 4 + (8 + hdrlSize) +
        (8 + (4 + d.toNat * 15 * (8 + data.length + data.length % 2))) +
        (8 + d.toNat * 15 * 16) < 4294967296) :
    aviTotalFrames d = d.toNat * 15 ∧
    (frameChunk data).length = 8 + data.length + data.length % 2 ∧
    (frameChunk data).take 4 = fourCC "00dc" ∧
    readU32le ((frameChunk data).drop 4) = data.length ∧
    (frameChunk data).drop (8 + data.length) =
      (if data.length % 2 = 1 then [0] else []) ∧
    readU32le ((moviBytes d data).drop 4) =
      4 + d.toNat * 15 * (8 + data.length + data.length % 2) ∧
    (moviBytes d data).length = 8 + readU32le ((moviBytes d data).drop 4) ∧
    readU32le ((idx1Bytes d data).drop 4) = d.toNat * 15 * 16 ∧
    (idx1Bytes d data).length = 8 + d.toNat * 15 * 16 ∧
    readU32le ((aviGenerateBytes d data w h).drop 4) =
      (aviGenerateBytes d data w h).length - 8 ∧
    (∀ i, i < d.toNat * 15 →
      readU32le ((idx1Bytes d data).drop (16 * i + 16)) =
        4 + i * (8 + data.length + data.length % 2) ∧
      ((aviGenerateBytes d data w h).drop
        (220 + (4 + i * (8 + data.length + data.length % 2)))).take 4 =
        fourCC "00dc" ∧
      readU32le ((aviGenerateBytes d data w h).drop
        (220 + (4 + i * (8 + data.length + data.length % 2)) + 4)) =
        data.length) := by
  -- notation: F := data.length, p := F % 2, span := 8 + F + p, n := d.toNat * 15
  -- no-overflow normalization facts
  have hN0 : uint32ofInt d = d.toNat := by unfold uint32ofInt; omega
  have hN1 : aviDurationSec d = d.toNat := by
    unfold aviDurationSec
    rw [hN0, if_neg (by omega)]
  have h15n : 15 ≤ d.toNat * 15 := Nat.le_mul_of_pos_left 15 (by omega)
  have hspan15 : 15 * (8 + data.length + data.length % 2) ≤
      d.toNat * 15 * (8 + data.length + data.length % 2) :=
    Nat.mul_le_mul_right _ h15n
  have hFs : 8 + data.length + data.length % 2 < 4294967296 := by omega
  have hN2 : aviTotalFrames d = d.toNat * 15 := by
    unfold aviTotalFrames w32 aviFps
    rw [hN1]
    omega
  have hN3 : jpegSizeOf data = data.length := by
    unfold jpegSizeOf w32
    omega
  have hN4 : paddedJPEGSize data = data.length + data.length % 2 := by
    unfold paddedJPEGSize
    rw [hN3]
    have hlt1 : data.length + 1 < 4294967296 := by omega
    rcases Nat.mod_two_eq_zero_or_one data.length with hpar | hpar
    · rw [if_neg (by omega)]; omega
    · rw [if_pos (by omega)]
      unfold w32
      rw [Nat.mod_eq_of_lt hlt1]
      omega
  have hN5 : frameChunkSize data = 8 + data.length + data.length % 2 := by
    unfold frameChunkSize
    rw [hN4]
    unfold w32
    omega
  have hN6 : moviSize d data =
      4 + d.toNat * 15 * (8 + data.length + data.length % 2) := by
    unfold moviSize
    rw [hN2, hN5]
    unfold w32
    omega
  have hN7 : w32 (aviTotalFrames d * 16) = d.toNat * 15 * 16 := by
    rw [hN2]
    unfold w32
    omega
  have hidx1Size : idx1Size d = 8 + d.toNat * 15 * 16 := by
    unfold idx1Size
    rw [hN2]
    unfold w32
    omega
  have hN8 : aviFileSize d data =
      4 + (8 + hdrlSize) +
        (8 + (4 + d.toNat * 15 * (8 + data.length + data.length % 2))) +
        (8 + d.toNat * 15 * 16) := by
    unfold aviFileSize
    rw [hN6, hidx1Size]
    unfold w32
    omega
  -- frame chunk facts
  have hc1 := frameChunk_length data
  have hc2 : (frameChunk data).take 4 = fourCC "00dc" := by
    rw [frameChunk_regroup, ← len00dc, List.take_left]
  have hc3 : readU32le ((frameChunk data).drop 4) = data.length := by
    rw [frameChunk_regroup, ← len00dc, List.drop_left, u32le_decode, hN3]
    omega
  have hc4 : (frameChunk data).drop (8 + data.length) =
      (if data.length % 2 = 1 then [0] else []) := by
    have hregroup2 : frameChunk data =
        (fourCC "00dc" ++ u32le (jpegSizeOf data) ++ data) ++
          (if jpegSizeOf data % 2 ≠ 0 then [0] else []) := by
      simp [frameChunk]
    have hlen3 : (fourCC "00dc" ++ u32le (jpegSizeOf data) ++ data).length =
        8 + data.length := by
      simp [List.length_append, len00dc, length_u32le]
      omega
    rw [hregroup2, ← hlen3, List.drop_left]
    have := jpegSizeOf_parity data
    rcases Nat.mod_two_eq_zero_or_one data.length with hpar | hpar <;>
      simp [hpar] <;> omega
  -- data block facts
  have hmoviLt : moviSize d data < 4294967296 := by
    unfold moviSize w32
    exact Nat.mod_lt _ (by norm_num)
  have hm1 : readU32le ((moviBytes d data).drop 4) =
      4 + d.toNat * 15 * (8 + data.length + data.length % 2) := by
    rw [moviBytes_regroup, show (4 : Nat) = (fourCC "LIST").length from rfl,
      List.drop_left, u32le_decode, Nat.mod_eq_of_lt hmoviLt, hN6]
    rfl
  have hm2 : (moviBytes d data).length =
      12 + d.toNat * 15 * (8 + data.length + data.length % 2) := by
    rw [moviBytes_regroup, List.length_append, List.length_append,
      List.length_append, length_flatten_replicate, hN2, hc1,
      show (fourCC "LIST").length = 4 from rfl, length_u32le,
      show (fourCC "movi").length = 4 from rfl]
    ring
  -- index block facts
  have hi1 : readU32le ((idx1Bytes d data).drop 4) = d.toNat * 15 * 16 := by
    rw [idx1Bytes_regroup, show (4 : Nat) = (fourCC "idx1").length from rfl,
      List.drop_left, u32le_decode, hN7]
    exact Nat.mod_eq_of_lt (by omega)
  have hi2 : (idx1Bytes d data).length = 8 + d.toNat * 15 * 16 := by
    rw [idx1Bytes_regroup, List.length_append, List.length_append,
      length_idxEntries, hN2, show (fourCC "idx1").length = 4 from rfl,
      length_u32le]
    ring
  -- RIFF size field
  have hfileLt : aviFileSize d data < 4294967296 := by
    unfold aviFileSize w32
    exact Nat.mod_lt _ (by norm_num)
  have hr1 : readU32le ((aviGenerateBytes d data w h).drop 4) =
      4 + (8 + hdrlSize) +
        (8 + (4 + d.toNat * 15 * (8 + data.length + data.length % 2))) +
        (8 + d.toNat * 15 * 16) := by
    rw [aviGenerateBytes_regroup]
    simp only [aviHeaderBytes, List.append_assoc]
    rw [show (4 : Nat) = (fourCC "RIFF").length from rfl, List.drop_left,
      u32le_decode, Nat.mod_eq_of_lt hfileLt, hN8]
    rfl
  have hlenTotal : (aviGenerateBytes d data w h).length =
      232 + (d.toNat * 15 * (8 + data.length + data.length % 2) +
        d.toNat * 15 * 16) := by
    rw [aviGenerateBytes_regroup, List.length_append, List.length_append,
      aviHeaderBytes_length, hm2, hi2]
    ring
  refine ⟨hN2, hc1, hc2, hc3, hc4, hm1, ?_, hi1, hi2, ?_, ?_⟩
  · rw [hm1, hm2]
    omega
  · rw [hr1, hlenTotal]
    unfold hdrlSize
    omega
  · intro i hi
    have hiLe : i * (8 + data.length + data.length % 2) ≤
        d.toNat * 15 * (8 + data.length + data.length % 2) :=
      Nat.mul_le_mul_right _ (le_of_lt hi)
    have hstream_eq : (aviGenerateBytes d data w h).drop
        (220 + (4 + i * (8 + data.length + data.length % 2))) =
        frameChunk data ++
          ((List.replicate (d.toNat * 15 - i - 1) (frameChunk data)).flatten ++
            idx1Bytes d data) := by
      rw [aviGenerateBytes_regroup,
        show 220 + (4 + i * (8 + data.length + data.length % 2)) =
            (aviHeaderBytes d data w h).length +
              (12 + i * (8 + data.length + data.length % 2)) from by
          rw [aviHeaderBytes_length]; ring,
        List.drop_append,
        show moviBytes d data ++ idx1Bytes d data =
            (fourCC "LIST" ++ u32le (moviSize d data) ++ fourCC "movi") ++
              ((List.replicate (aviTotalFrames d) (frameChunk data)).flatten ++
                idx1Bytes d data) from by simp [moviBytes],
        show 12 + i * (8 + data.length + data.length % 2) =
            (fourCC "LIST" ++ u32le (moviSize d data) ++ fourCC "movi").length +
              i * (8 + data.length + data.length % 2) from by
          rw [show (fourCC "LIST" ++ u32le (moviSize d data) ++
            fourCC "movi").length = 12 from rfl],
        List.drop_append,
        show i * (8 + data.length + data.length % 2) =
          i * (frameChunk data).length from by rw [hc1],
        List.drop_append_of_le_length (by
          rw [length_flatten_replicate, hc1, hN2]; exact hiLe),
        drop_flatten_replicate (frameChunk data) i (aviTotalFrames d)
          (by rw [hN2]; omega),
        show aviTotalFrames d - i = (d.toNat * 15 - i - 1) + 1 from by
          rw [hN2]; omega,
        List.replicate_succ, List.flatten_cons, List.append_assoc]
    refine ⟨?_, ?_, ?_⟩
    · show readU32le (((fourCC "idx1" ++ u32le (w32 (aviTotalFrames d * 16))) ++
        idxEntries data (aviTotalFrames d) 4).drop (16 * i + 16)) = _
      rw [show 16 * i + 16 =
          (fourCC "idx1" ++ u32le (w32 (aviTotalFrames d * 16))).length +
            (16 * i + 8) from by
        rw [show (fourCC "idx1" ++ u32le (w32 (aviTotalFrames d * 16))).length = 8
          from rfl]
        ring]
      rw [List.drop_append,
        idxEntries_offset_field data (aviTotalFrames d) 4 i (by rw [hN2]; exact hi),
        hN5]
      unfold w32
      exact Nat.mod_eq_of_lt (by omega)
    · rw [hstream_eq]
      rw [List.take_append_of_le_length (by rw [hc1]; omega)]
      exact hc2
    · rw [← List.drop_drop, hstream_eq, frameChunk_regroup, List.append_assoc,
        show (4 : Nat) = (fourCC "00dc").length from rfl, List.drop_left]
      rw [List.append_assoc, u32le_decode, hN3]
      exact Nat.mod_eq_of_lt (by omega)

/-- C1 counterexample: the claim quantifies over every `durationSeconds ≥ 1`,
but at `durationSeconds = 2^32` (a valid Go `int`) the muxer's `uint32`
conversion wraps to 0, the `< 1` clamp raises it to one second, and the
container holds 15 frame chunks instead of `2^32 * 15`. -/
theorem c1_counterexample :
    (1 : Int) ≤ 4294967296 ∧ aviTotalFrames 4294967296 = 15 ∧
    (4294967296 : Nat) * 15 ≠ 15 := by
  refine ⟨by norm_num, by decide, by norm_num⟩

theorem c1_container_layout_witness :
    aviTotalFrames 1 = 15 ∧
    (frameChunk [255, 216, 255]).length = 12 ∧
    (frameChunk [255, 216, 255]).take 4 = fourCC "00dc" ∧
    readU32le ((frameChunk [255, 216, 255]).drop 4) = 3 ∧
    (frameChunk [255, 216, 255]).drop 11 = [0] ∧
    readU32le ((moviBytes 1 [255, 216, 255]).drop 4) = 184 ∧
    (moviBytes 1 [255, 216, 255]).length =
      8 + readU32le ((moviBytes 1 [255, 216, 255]).drop 4) ∧
    readU32le ((idx1Bytes 1 [255, 216, 255]).drop 4) = 240 ∧
    (idx1Bytes 1 [255, 216, 255]).length = 248 ∧
    readU32le ((aviGenerateBytes 1 [255, 216, 255] 2 2).drop 4) =
      (aviGenerateBytes 1 [255, 216, 255] 2 2).length - 8 ∧
    (∀ i, i < 15 →
      readU32le ((idx1Bytes 1 [255, 216, 255]).drop (16 * i + 16)) = 4 + i * 12 ∧
      ((aviGenerateBytes 1 [255, 216, 255] 2 2).drop (220 + (4 + i * 12))).take 4 =
        fourCC "00dc" ∧
      readU32le ((aviGenerateBytes 1 [255, 216, 255] 2 2).drop
        (220 + (4 + i * 12) + 4)) = 3) :=
  c1_container_layout 1 [255, 216, 255] 2 2 (by norm_num) (by norm_num) (by decide)

end GoStencil
